import Mathlib

/-
Verification of the scoped-resource adapter of pyutil (src/util.py):
the class _GeneratorSimpleContextManager (overriding __exit__ of the
standard-library contextlib._GeneratorContextManager) together with the
@simplecontextmanager decorator and the with-statement composition.

Modelling choices:
* A Python exception object is a PyExc: a numeric identity (Python object
  identity, compared by the operator "is"), a class name and the args tuple.
  Two PyExc values with the same name and args but different id model two
  distinct exception instances carrying identical data.
* A generator (the Procedure of the spec) is a PyGen: an explicit state
  plus a step function.  The step function receives a ResumeInput:
  ResumeInput.norm models a plain next(gen) resume, ResumeInput.throw e
  models gen.throw(e) delivering e at the suspension point.  A step yields
  a value, stops (raising a StopIteration instance), or raises.
* GSCM_exit embeds __exit__ of _GeneratorSimpleContextManager
  (src/util.py lines 113-137).  The branch for an injected failure is
  embedded in two stages: the outcome of the try/except/else block, then
  applyFinallyReturnFalse, the Python rule that a return statement inside
  a finally block replaces any pending return value and swallows any
  pending exception.  The source calls next(self.gen) in both branches;
  it never calls self.gen.throw.  The Option PyExc argument merges the
  type and value parameters (some v means type is not None with the value
  already instantiated, covering the "if value is None: value = type()"
  normalisation; none means type is None).
* GSCM_enter embeds __enter__, inherited unchanged from the standard
  library contextlib._GeneratorContextManager: return next(self.gen),
  turning StopIteration into RuntimeError("generator didn\x27t yield").
* withStmt embeds the Python with-statement around such an adapter
  (the scoped-use helper of the spec): enter, run the body, and call
  __exit__ exactly once with the in-flight exception if any; a falsy
  return value of __exit__ re-raises the body exception, a truthy one
  suppresses it, and an exception raised by __exit__ itself propagates.
-/

namespace PyUtil

structure PyExc where
  id : Nat
  name : String
  args : List String
  deriving DecidableEq

inductive ResumeInput where
  | norm
  | throw (e : PyExc)
  deriving DecidableEq

inductive ResumeResult where
  | yields (v : Nat)
  | stops (exc : PyExc)
  | raises (e : PyExc)
  deriving DecidableEq

structure PyGen (σ : Type) where
  state : σ
  step : σ → ResumeInput → ResumeResult × σ

def setState {σ : Type} (g : PyGen σ) (s : σ) : PyGen σ :=
  { g with state := s }

inductive EnterOutcome where
  | returns (v : Nat)
  | raises (e : PyExc)
  deriving DecidableEq

/-- ExitOutcome.returns b models __exit__ returning a value of truthiness
b (returning None counts as returns false); ExitOutcome.raises e models
__exit__ raising e. -/
inductive ExitOutcome where
  | returns (suppress : Bool)
  | raises (e : PyExc)
  deriving DecidableEq

def runtimeErrorDidntStop : PyExc :=
  ⟨900, "RuntimeError", ["generator didn\x27t stop"]⟩

def runtimeErrorDidntYield : PyExc :=
  ⟨901, "RuntimeError", ["generator didn\x27t yield"]⟩

/-- A StopIteration instance; the parameter keeps distinct raise sites
distinct from each other and from user exceptions. -/
def stopIterExc (n : Nat) : PyExc :=
  ⟨1000 + n, "StopIteration", []⟩

/-- Embeds __enter__ of contextlib._GeneratorContextManager (standard
library, inherited unchanged by _GeneratorSimpleContextManager):
try: return next(self.gen) except StopIteration: raise
RuntimeError("generator didn\x27t yield"). -/
def GSCM_enter {σ : Type} (g : PyGen σ) : EnterOutcome × σ :=
  match g.step g.state ResumeInput.norm with
  | (ResumeResult.yields v, s) => (EnterOutcome.returns v, s)
  | (ResumeResult.stops _, s) => (EnterOutcome.raises runtimeErrorDidntYield, s)
  | (ResumeResult.raises e, s) => (EnterOutcome.raises e, s)

/-- The Python rule for the trailing "finally: return False" of __exit__
(src/util.py line 136-137): a return inside a finally block replaces any
pending return value and swallows any pending exception of the try,
except and else blocks. -/
def applyFinallyReturnFalse (_o : ExitOutcome) : ExitOutcome :=
  ExitOutcome.returns false

/-- Embeds __exit__ of _GeneratorSimpleContextManager (src/util.py lines
113-137).  Branch none: next(self.gen); StopIteration means return
(None, falsy); a second yield raises RuntimeError("generator didn\x27t
stop"); any other exception propagates.  Branch some value: the source
again calls next(self.gen) (not self.gen.throw); the try outcome is
return (exc is not value) on StopIteration exc, raise
RuntimeError("generator didn\x27t stop") if the generator yielded again,
or the propagating exception; then the finally clause applies. -/
def GSCM_exit {σ : Type} (g : PyGen σ) (excOpt : Option PyExc) :
    ExitOutcome × σ :=
  match excOpt with
  | none =>
    match g.step g.state ResumeInput.norm with
    | (ResumeResult.stops _, s) => (ExitOutcome.returns false, s)
    | (ResumeResult.yields _, s) => (ExitOutcome.raises runtimeErrorDidntStop, s)
    | (ResumeResult.raises e, s) => (ExitOutcome.raises e, s)
  | some value =>
    match g.step g.state ResumeInput.norm with
    | (ResumeResult.stops exc, s) =>
      (applyFinallyReturnFalse (ExitOutcome.returns (exc.id != value.id)), s)
    | (ResumeResult.yields _, s) =>
      (applyFinallyReturnFalse (ExitOutcome.raises runtimeErrorDidntStop), s)
    | (ResumeResult.raises e, s) =>
      (applyFinallyReturnFalse (ExitOutcome.raises e), s)

inductive BodyResult where
  | completes
  | raises (e : PyExc)
  deriving DecidableEq

inductive WithOutcome where
  | completes
  | raises (e : PyExc)
  deriving DecidableEq

/-- Embeds the with statement around the adapter (the scoped-use helper):
call __enter__; on success bind the value and run the body; call __exit__
exactly once with the in-flight exception if the body raised one, or with
none if it completed; a truthy __exit__ return suppresses the body
exception, a falsy one re-raises it, and an exception raised by __exit__
propagates instead. -/
def withStmt {σ : Type} (g : PyGen σ) (body : Nat → BodyResult) :
    WithOutcome × σ :=
  match GSCM_enter g with
  | (EnterOutcome.raises e, s) => (WithOutcome.raises e, s)
  | (EnterOutcome.returns v, s) =>
    match body v with
    | BodyResult.completes =>
      match GSCM_exit (setState g s) none with
      | (ExitOutcome.returns _, s2) => (WithOutcome.completes, s2)
      | (ExitOutcome.raises e, s2) => (WithOutcome.raises e, s2)
    | BodyResult.raises f =>
      match GSCM_exit (setState g s) (some f) with
      | (ExitOutcome.returns true, s2) => (WithOutcome.completes, s2)
      | (ExitOutcome.returns false, s2) => (WithOutcome.raises f, s2)
      | (ExitOutcome.raises e, s2) => (WithOutcome.raises e, s2)

/-- Modelled from the spec: exit with an injected failure F as section
4.2 describes it, for comparison with GSCM_exit.  The body receives F as
if thrown at the suspension point (resume with ResumeInput.throw F);
normal completion suppresses F, raising exactly F propagates it unchanged
(exit returns false so the caller re-raises F), raising a different
failure propagates that failure, and a second suspension is a protocol
violation. -/
def specExit_withFailure {σ : Type} (g : PyGen σ) (F : PyExc) :
    ExitOutcome × σ :=
  match g.step g.state (ResumeInput.throw F) with
  | (ResumeResult.stops _, s) => (ExitOutcome.returns true, s)
  | (ResumeResult.raises e, s) =>
    if e.id = F.id then (ExitOutcome.returns false, s)
    else (ExitOutcome.raises e, s)
  | (ResumeResult.yields _, s) => (ExitOutcome.raises runtimeErrorDidntStop, s)

/- Concrete Procedures used as test vehicles.  Each is a program counter
machine; a throw at a suspension point of a generator with no handler
propagates the thrown exception, and an exhausted generator raises a
fresh StopIteration on every further resume. -/

/-- A well-formed Procedure: setup, yield 1, cleanup, complete (the shape
of the chdir, umask and tempdir helpers of src/util.py). -/
def stepOnce : Nat → ResumeInput → ResumeResult × Nat
  | 0, ResumeInput.norm => (ResumeResult.yields 1, 1)
  | 1, ResumeInput.norm => (ResumeResult.stops (stopIterExc 1), 2)
  | pc, ResumeInput.norm => (ResumeResult.stops (stopIterExc pc), pc)
  | _, ResumeInput.throw e => (ResumeResult.raises e, 2)

def genOnce : PyGen Nat := ⟨0, stepOnce⟩

structure FlagState where
  pc : Nat
  before : Option Bool
  after : Option Bool
  deriving DecidableEq

/-- The Procedure of TestUtil.test_simplecontextmanager (src/util.py
lines 279-286): first resume sets after to None and before to True and
yields 1; second resume sets after to True and completes. -/
def stepFlags : FlagState → ResumeInput → ResumeResult × FlagState
  | ⟨0, _, _⟩, ResumeInput.norm =>
    (ResumeResult.yields 1, ⟨1, some true, none⟩)
  | ⟨1, b, _⟩, ResumeInput.norm =>
    (ResumeResult.stops (stopIterExc 1), ⟨2, b, some true⟩)
  | ⟨pc, b, a⟩, ResumeInput.norm =>
    (ResumeResult.stops (stopIterExc pc), ⟨pc, b, a⟩)
  | ⟨pc, b, a⟩, ResumeInput.throw e => (ResumeResult.raises e, ⟨pc + 100, b, a⟩)

def genFlags : PyGen FlagState := ⟨⟨0, none, none⟩, stepFlags⟩

def excWith : PyExc := ⟨10, "Exception", ["with"]⟩

def excCheck : PyExc := ⟨20, "Exception", ["check"]⟩

def excBoom : PyExc := ⟨7, "Exception", ["boom"]⟩

/-- The Procedure of TestUtil.test_simplecontextmanager_raise (src/util.py
lines 336-343): yields 1, then raises Exception("with") on the second
resume. -/
def stepWith : Nat → ResumeInput → ResumeResult × Nat
  | 0, ResumeInput.norm => (ResumeResult.yields 1, 1)
  | 1, ResumeInput.norm => (ResumeResult.raises excWith, 2)
  | pc, ResumeInput.norm => (ResumeResult.stops (stopIterExc pc), pc)
  | _, ResumeInput.throw e => (ResumeResult.raises e, 2)

def genTwoStep : Nat → ResumeInput → ResumeResult × Nat
  | 0, ResumeInput.norm => (ResumeResult.yields 1, 1)
  | 1, ResumeInput.norm => (ResumeResult.yields 2, 2)
  | 2, ResumeInput.norm => (ResumeResult.stops (stopIterExc 2), 3)
  | pc, ResumeInput.norm => (ResumeResult.stops (stopIterExc pc), pc)
  | _, ResumeInput.throw e => (ResumeResult.raises e, 3)

def genWith : PyGen Nat := ⟨0, stepWith⟩

/-- The Procedure of TestUtil.test_simplecontextmanager_double_yield
(src/util.py lines 312-320): yields 1, yields 2, then completes. -/
def genTwo : PyGen Nat := ⟨0, genTwoStep⟩

structure ObsState where
  pc : Nat
  observed : Option PyExc
  deriving DecidableEq

/-- A Procedure whose cleanup catches and records any exception delivered
at its suspension point (try: yield 1 except as e: observed = e) and then
completes; it distinguishes a plain resume from a thrown one. -/
def stepObserve : ObsState → ResumeInput → ResumeResult × ObsState
  | ⟨0, o⟩, ResumeInput.norm => (ResumeResult.yields 1, ⟨1, o⟩)
  | ⟨1, _⟩, ResumeInput.norm => (ResumeResult.stops (stopIterExc 1), ⟨2, none⟩)
  | ⟨1, _⟩, ResumeInput.throw e =>
    (ResumeResult.stops (stopIterExc 1), ⟨2, some e⟩)
  | ⟨pc, o⟩, ResumeInput.norm => (ResumeResult.stops (stopIterExc pc), ⟨pc, o⟩)
  | ⟨pc, o⟩, ResumeInput.throw e => (ResumeResult.raises e, ⟨pc + 100, o⟩)

def genObserve : PyGen ObsState := ⟨⟨0, none⟩, stepObserve⟩

def excBoomA : PyExc := ⟨21, "Exception", ["boom"]⟩

def excBoomB : PyExc := ⟨22, "Exception", ["boom"]⟩

/-- A Procedure that yields 1 and then raises the distinct instance
excBoomB, which carries the same class and args as excBoomA. -/
def stepBoomB : Nat → ResumeInput → ResumeResult × Nat
  | 0, ResumeInput.norm => (ResumeResult.yields 1, 1)
  | 1, ResumeInput.norm => (ResumeResult.raises excBoomB, 2)
  | pc, ResumeInput.norm => (ResumeResult.stops (stopIterExc pc), pc)
  | _, ResumeInput.throw e => (ResumeResult.raises e, 2)

def genBoomB : PyGen Nat := ⟨0, stepBoomB⟩

/-- A Procedure that yields 1 and then re-raises exactly the given
exception object F on its second resume (cleanup holding a reference to
the original failure and re-raising the very same instance). -/
def stepReRaise (F : PyExc) : Nat → ResumeInput → ResumeResult × Nat
  | 0, ResumeInput.norm => (ResumeResult.yields 1, 1)
  | 1, ResumeInput.norm => (ResumeResult.raises F, 2)
  | pc, ResumeInput.norm => (ResumeResult.stops (stopIterExc pc), pc)
  | _, ResumeInput.throw e => (ResumeResult.raises e, 2)

def genReRaise (F : PyExc) : PyGen Nat := ⟨0, stepReRaise F⟩

end PyUtil

namespace PyUtil

theorem setState_state {σ : Type} (g : PyGen σ) (s : σ) :
    (setState g s).state = s := rfl

theorem setState_step {σ : Type} (g : PyGen σ) (s t : σ) (i : ResumeInput) :
    (setState g s).step t i = g.step t i := rfl

/-- Claim C10: for every Procedure and every injected failure, the
overridden exit returns False: the trailing finally clause replaces the
suppression value and swallows any exception raised on this path, so the
with statement always re-raises the in-flight failure of the block. -/
theorem c10_exit_always_false {σ : Type} (g : PyGen σ) (F : PyExc) :
    (GSCM_exit g (some F)).1 = ExitOutcome.returns false := by
  rcases h : g.step g.state ResumeInput.norm with ⟨r, s⟩
  cases r <;> simp [GSCM_exit, h, applyFinallyReturnFalse]

/-- Claim C2 counterexample: for the Procedure genObserve, whose cleanup
records any failure delivered at its suspension point, exit with injected
failure excBoom leaves nothing recorded (the source resumes with next,
not throw), while the exit described by the spec would record excBoom. -/
theorem c2_counterexample :
    (GSCM_exit (setState genObserve ⟨1, none⟩) (some excBoom)).2.observed
      = none ∧
    (specExit_withFailure (setState genObserve ⟨1, none⟩) excBoom).2.observed
      = some excBoom ∧
    (none : Option PyExc) ≠ some excBoom := by
  refine ⟨rfl, rfl, by decide⟩

/-- Claim C2 (amended): exit with an injected failure resumes the body
with a plain next, so the resulting Procedure state is the one a normal
resume produces, independent of which failure was injected — the body
never observes the injected failure. -/
theorem c2_amended {σ : Type} (g : PyGen σ) (F Fp : PyExc) :
    (GSCM_exit g (some F)).2 = (g.step g.state ResumeInput.norm).2 ∧
    (GSCM_exit g (some F)).2 = (GSCM_exit g (some Fp)).2 := by
  rcases h : g.step g.state ResumeInput.norm with ⟨r, s⟩
  cases r <;> simp [GSCM_exit, h, applyFinallyReturnFalse]

/-- Claim C1 counterexample: for the well-formed Procedure genOnce, whose
second resume completes normally, exit with injected failure excBoom does
not return True (it returns False), and the with statement around a block
raising excBoom re-raises excBoom rather than suppressing it. -/
theorem c1_counterexample :
    genOnce.step 1 ResumeInput.norm = (ResumeResult.stops (stopIterExc 1), 2) ∧
    (GSCM_exit (setState genOnce 1) (some excBoom)).1
      ≠ ExitOutcome.returns true ∧
    (withStmt genOnce (fun _ => BodyResult.raises excBoom)).1
      = WithOutcome.raises excBoom := by
  refine ⟨rfl, by decide, rfl⟩

/-- Claim C1 (amended): when cleanup completes normally on the second
resume after an injected failure F, exit returns False (it does not
signal handled), so the with statement re-raises F: the overall operation
fails with F even though cleanup ran to completion. -/
theorem c1_amended {σ : Type} (g : PyGen σ) (v : Nat) (s1 s2 : σ)
    (exc F : PyExc)
    (h1 : g.step g.state ResumeInput.norm = (ResumeResult.yields v, s1))
    (h2 : g.step s1 ResumeInput.norm = (ResumeResult.stops exc, s2)) :
    GSCM_exit (setState g s1) (some F) = (ExitOutcome.returns false, s2) ∧
    withStmt g (fun _ => BodyResult.raises F) = (WithOutcome.raises F, s2) := by
  have hx : GSCM_exit (setState g s1) (some F)
      = (ExitOutcome.returns false, s2) := by
    simp [GSCM_exit, setState_state, setState_step, h2, applyFinallyReturnFalse]
  have he : GSCM_enter g = (EnterOutcome.returns v, s1) := by
    simp [GSCM_enter, h1]
  exact ⟨hx, by simp [withStmt, he, hx]⟩

/-- Claim C1 witness: the amended claim at the Procedure genOnce with
injected failure excBoom. -/
theorem c1_witness :
    genOnce.step genOnce.state ResumeInput.norm = (ResumeResult.yields 1, 1) ∧
    genOnce.step 1 ResumeInput.norm = (ResumeResult.stops (stopIterExc 1), 2) ∧
    (GSCM_exit (setState genOnce 1) (some excBoom)
        = (ExitOutcome.returns false, 2) ∧
      withStmt genOnce (fun _ => BodyResult.raises excBoom)
        = (WithOutcome.raises excBoom, 2)) :=
  ⟨rfl, rfl, c1_amended genOnce 1 1 2 (stopIterExc 1) excBoom rfl rfl⟩

end PyUtil

namespace PyUtil

/-- Claim C3 counterexample: the Procedure genWith raises the distinct
failure excWith on its second resume, yet with an injected failure
excCheck the with statement re-raises excCheck, not excWith — the
replacement failure is discarded, matching the assertions of
TestUtil.test_simplecontextmanager_raise (src/util.py lines 357-368). -/
theorem c3_counterexample :
    genWith.step 1 ResumeInput.norm = (ResumeResult.raises excWith, 2) ∧
    excWith.id ≠ excCheck.id ∧
    withStmt genWith (fun _ => BodyResult.raises excCheck)
      = (WithOutcome.raises excCheck, 2) ∧
    WithOutcome.raises excCheck ≠ WithOutcome.raises excWith := by
  refine ⟨rfl, by decide, rfl, by decide⟩

/-- Claim C3 (amended): when the second resume raises a failure distinct
from the injected failure F, exit swallows that new failure in its
finally clause and returns False, so the with statement re-raises the
original F: the caller observes F, and the replacement failure is
discarded. -/
theorem c3_amended {σ : Type} (g : PyGen σ) (v : Nat) (s1 s2 : σ)
    (F Fp : PyExc)
    (h1 : g.step g.state ResumeInput.norm = (ResumeResult.yields v, s1))
    (h2 : g.step s1 ResumeInput.norm = (ResumeResult.raises Fp, s2))
    (h3 : Fp.id ≠ F.id) :
    GSCM_exit (setState g s1) (some F) = (ExitOutcome.returns false, s2) ∧
    withStmt g (fun _ => BodyResult.raises F) = (WithOutcome.raises F, s2) := by
  have hx : GSCM_exit (setState g s1) (some F)
      = (ExitOutcome.returns false, s2) := by
    simp [GSCM_exit, setState_state, setState_step, h2, applyFinallyReturnFalse]
  have he : GSCM_enter g = (EnterOutcome.returns v, s1) := by
    simp [GSCM_enter, h1]
  exact ⟨hx, by simp [withStmt, he, hx]⟩

/-- Claim C3 witness: the amended claim at the Procedure genWith with
injected failure excCheck and replacement failure excWith. -/
theorem c3_witness :
    genWith.step genWith.state ResumeInput.norm = (ResumeResult.yields 1, 1) ∧
    genWith.step 1 ResumeInput.norm = (ResumeResult.raises excWith, 2) ∧
    excWith.id ≠ excCheck.id ∧
    (GSCM_exit (setState genWith 1) (some excCheck)
        = (ExitOutcome.returns false, 2) ∧
      withStmt genWith (fun _ => BodyResult.raises excCheck)
        = (WithOutcome.raises excCheck, 2)) :=
  ⟨rfl, rfl, by decide,
    c3_amended genWith 1 1 2 excCheck excWith rfl rfl (by decide)⟩

/-- Claim C4 counterexample: for the Procedure genTwo, which suspends a
second time, exit with injected failure excBoom returns False rather than
raising the protocol-violation RuntimeError, and the with statement
re-raises excBoom: the injected failure, not the protocol error, is what
the caller observes. -/
theorem c4_counterexample :
    genTwo.step 1 ResumeInput.norm = (ResumeResult.yields 2, 2) ∧
    (GSCM_exit (setState genTwo 1) (some excBoom)).1
      = ExitOutcome.returns false ∧
    (GSCM_exit (setState genTwo 1) (some excBoom)).1
      ≠ ExitOutcome.raises runtimeErrorDidntStop ∧
    (withStmt genTwo (fun _ => BodyResult.raises excBoom)).1
      = WithOutcome.raises excBoom := by
  refine ⟨rfl, rfl, by decide, rfl⟩

/-- Claim C4 (amended): when the Procedure suspends a second time during
exit with an injected failure F, the RuntimeError raised for the
violation is swallowed by the finally clause: exit returns False and the
with statement re-raises F, so the caller observes F, not a protocol
error. -/
theorem c4_amended {σ : Type} (g : PyGen σ) (v w : Nat) (s1 s2 : σ)
    (F : PyExc)
    (h1 : g.step g.state ResumeInput.norm = (ResumeResult.yields v, s1))
    (h2 : g.step s1 ResumeInput.norm = (ResumeResult.yields w, s2)) :
    GSCM_exit (setState g s1) (some F) = (ExitOutcome.returns false, s2) ∧
    withStmt g (fun _ => BodyResult.raises F) = (WithOutcome.raises F, s2) := by
  have hx : GSCM_exit (setState g s1) (some F)
      = (ExitOutcome.returns false, s2) := by
    simp [GSCM_exit, setState_state, setState_step, h2, applyFinallyReturnFalse]
  have he : GSCM_enter g = (EnterOutcome.returns v, s1) := by
    simp [GSCM_enter, h1]
  exact ⟨hx, by simp [withStmt, he, hx]⟩

/-- Claim C4 witness: the amended claim at the Procedure genTwo with
injected failure excBoom. -/
theorem c4_witness :
    genTwo.step genTwo.state ResumeInput.norm = (ResumeResult.yields 1, 1) ∧
    genTwo.step 1 ResumeInput.norm = (ResumeResult.yields 2, 2) ∧
    (GSCM_exit (setState genTwo 1) (some excBoom)
        = (ExitOutcome.returns false, 2) ∧
      withStmt genTwo (fun _ => BodyResult.raises excBoom)
        = (WithOutcome.raises excBoom, 2)) :=
  ⟨rfl, rfl, c4_amended genTwo 1 2 1 2 excBoom rfl rfl⟩

/-- Claim C5 counterexample: for the Procedure genTwo, which suspends a
second time, exit with no injected failure raises the RuntimeError whose
message is "generator didn\x27t stop", but a subsequent exit on the same
adapter returns normally (it resumes the generator to completion) instead
of failing: the adapter keeps no poisoned state. -/
theorem c5_counterexample :
    GSCM_exit (setState genTwo 1) none
      = (ExitOutcome.raises runtimeErrorDidntStop, 2) ∧
    GSCM_exit (setState genTwo 2) none = (ExitOutcome.returns false, 3) ∧
    ExitOutcome.returns false ≠ ExitOutcome.raises runtimeErrorDidntStop := by
  refine ⟨rfl, rfl, by decide⟩

/-- Claim C5 (amended): when the Procedure suspends again during exit
with no injected failure, exit raises RuntimeError("generator didn\x27t
stop"); the adapter records no broken state, so a subsequent exit with no
failure simply resumes the generator once more and, if the generator then
completes, returns normally rather than failing. -/
theorem c5_amended {σ : Type} (g : PyGen σ) (w : Nat) (s2 s3 : σ)
    (exc : PyExc)
    (h1 : g.step g.state ResumeInput.norm = (ResumeResult.yields w, s2))
    (h2 : g.step s2 ResumeInput.norm = (ResumeResult.stops exc, s3)) :
    GSCM_exit g none = (ExitOutcome.raises runtimeErrorDidntStop, s2) ∧
    GSCM_exit (setState g s2) none = (ExitOutcome.returns false, s3) := by
  constructor
  · simp [GSCM_exit, h1]
  · simp [GSCM_exit, setState_state, setState_step, h2]

/-- Claim C5 witness: the amended claim at the Procedure genTwo in its
entered state. -/
theorem c5_witness :
    (setState genTwo 1).step (setState genTwo 1).state ResumeInput.norm
      = (ResumeResult.yields 2, 2) ∧
    (setState genTwo 1).step 2 ResumeInput.norm
      = (ResumeResult.stops (stopIterExc 2), 3) ∧
    (GSCM_exit (setState genTwo 1) none
        = (ExitOutcome.raises runtimeErrorDidntStop, 2) ∧
      GSCM_exit (setState (setState genTwo 1) 2) none
        = (ExitOutcome.returns false, 3)) :=
  ⟨rfl, rfl, c5_amended (setState genTwo 1) 2 2 3 (stopIterExc 2) rfl rfl⟩

/-- Claim C6: when exit is called with no injected failure and the second
resume raises a failure, that failure propagates unchanged to the caller
of exit, and the with statement around a normally completing block raises
it; at the Procedure genWith this is the failure carrying "with", as in
TestUtil.test_simplecontextmanager_raise (src/util.py lines 345-355). -/
theorem c6_cleanup_failure_propagates {σ : Type} (g : PyGen σ) (v : Nat)
    (s1 s2 : σ) (e : PyExc)
    (h1 : g.step g.state ResumeInput.norm = (ResumeResult.yields v, s1))
    (h2 : g.step s1 ResumeInput.norm = (ResumeResult.raises e, s2)) :
    GSCM_exit (setState g s1) none = (ExitOutcome.raises e, s2) ∧
    withStmt g (fun _ => BodyResult.completes) = (WithOutcome.raises e, s2) := by
  have hx : GSCM_exit (setState g s1) none = (ExitOutcome.raises e, s2) := by
    simp [GSCM_exit, setState_state, setState_step, h2]
  have he : GSCM_enter g = (EnterOutcome.returns v, s1) := by
    simp [GSCM_enter, h1]
  exact ⟨hx, by simp [withStmt, he, hx]⟩

/-- Claim C6 witness: the claim at the Procedure genWith, whose second
resume raises the failure carrying "with". -/
theorem c6_witness :
    genWith.step genWith.state ResumeInput.norm = (ResumeResult.yields 1, 1) ∧
    genWith.step 1 ResumeInput.norm = (ResumeResult.raises excWith, 2) ∧
    (GSCM_exit (setState genWith 1) none = (ExitOutcome.raises excWith, 2) ∧
      withStmt genWith (fun _ => BodyResult.completes)
        = (WithOutcome.raises excWith, 2)) :=
  ⟨rfl, rfl, c6_cleanup_failure_propagates genWith 1 1 2 excWith rfl rfl⟩

end PyUtil

namespace PyUtil

/-- Claim C7: for a well-formed Procedure (first resume yields a value,
second resume completes), enter performs exactly the first resume and
returns the yielded value, and exit with no failure performs exactly the
second resume and returns normally: setup and cleanup each run exactly
once; the witness instantiates this with the Procedure of
TestUtil.test_simplecontextmanager, where enter returns 1 with the after
flag still unset and exit leaves after set to True. -/
theorem c7_lifecycle {σ : Type} (g : PyGen σ) (v : Nat) (s1 s2 : σ)
    (exc : PyExc)
    (h1 : g.step g.state ResumeInput.norm = (ResumeResult.yields v, s1))
    (h2 : g.step s1 ResumeInput.norm = (ResumeResult.stops exc, s2)) :
    GSCM_enter g = (EnterOutcome.returns v, s1) ∧
    GSCM_exit (setState g s1) none = (ExitOutcome.returns false, s2) := by
  constructor
  · simp [GSCM_enter, h1]
  · simp [GSCM_exit, setState_state, setState_step, h2]

/-- Claim C7 witness: the claim at the Procedure genFlags: enter returns
1 and leaves the state at pc 1 with before set and after unset; exit with
no failure leaves the state at pc 2 with after set to True. -/
theorem c7_witness :
    genFlags.step genFlags.state ResumeInput.norm
      = (ResumeResult.yields 1, ⟨1, some true, none⟩) ∧
    genFlags.step ⟨1, some true, none⟩ ResumeInput.norm
      = (ResumeResult.stops (stopIterExc 1), ⟨2, some true, some true⟩) ∧
    (GSCM_enter genFlags = (EnterOutcome.returns 1, ⟨1, some true, none⟩) ∧
      GSCM_exit (setState genFlags ⟨1, some true, none⟩) none
        = (ExitOutcome.returns false, ⟨2, some true, some true⟩)) :=
  ⟨rfl, rfl,
    c7_lifecycle genFlags 1 ⟨1, some true, none⟩ ⟨2, some true, some true⟩
      (stopIterExc 1) rfl rfl⟩

/-- Claim C8 counterexample: the Procedure genBoomB raises on its second
resume the instance excBoomB, which carries the same class and args as
the injected failure excBoomA but is a distinct instance; the with
statement nevertheless re-raises excBoomA — the distinct instance is
discarded rather than treated as a replacement observed by the caller. -/
theorem c8_counterexample :
    excBoomB.name = excBoomA.name ∧
    excBoomB.args = excBoomA.args ∧
    excBoomB.id ≠ excBoomA.id ∧
    genBoomB.step 1 ResumeInput.norm = (ResumeResult.raises excBoomB, 2) ∧
    withStmt genBoomB (fun _ => BodyResult.raises excBoomA)
      = (WithOutcome.raises excBoomA, 2) ∧
    WithOutcome.raises excBoomA ≠ WithOutcome.raises excBoomB := by
  refine ⟨rfl, rfl, by decide, rfl, rfl, by decide⟩

/-- Claim C8 (amended): whatever failure the second resume raises under
an injected failure F — the very instance F or any other instance — exit
swallows it and returns False, and the with statement re-raises the
original F: re-raising exactly F does leave the caller observing exactly
F (same identity), but a distinct instance with identical data is
likewise discarded rather than propagated as a replacement. -/
theorem c8_amended {σ : Type} (g : PyGen σ) (v : Nat) (s1 s2 : σ)
    (F e : PyExc)
    (h1 : g.step g.state ResumeInput.norm = (ResumeResult.yields v, s1))
    (h2 : g.step s1 ResumeInput.norm = (ResumeResult.raises e, s2)) :
    withStmt g (fun _ => BodyResult.raises F) = (WithOutcome.raises F, s2) := by
  have hx : GSCM_exit (setState g s1) (some F)
      = (ExitOutcome.returns false, s2) := by
    simp [GSCM_exit, setState_state, setState_step, h2, applyFinallyReturnFalse]
  have he : GSCM_enter g = (EnterOutcome.returns v, s1) := by
    simp [GSCM_enter, h1]
  simp [withStmt, he, hx]

/-- Claim C8 witness: the amended claim at the Procedure that re-raises
exactly the injected instance excBoomA on its second resume: the overall
operation raises exactly excBoomA. -/
theorem c8_witness :
    (genReRaise excBoomA).step (genReRaise excBoomA).state ResumeInput.norm
      = (ResumeResult.yields 1, 1) ∧
    (genReRaise excBoomA).step 1 ResumeInput.norm
      = (ResumeResult.raises excBoomA, 2) ∧
    withStmt (genReRaise excBoomA) (fun _ => BodyResult.raises excBoomA)
      = (WithOutcome.raises excBoomA, 2) :=
  ⟨rfl, rfl, c8_amended (genReRaise excBoomA) 1 1 2 excBoomA excBoomA rfl rfl⟩

/-- Claim C9 counterexample: for the adapter of the Procedure genTwo,
a second enter with no intervening exit does not fail at all: it resumes
the generator to its second yield and returns 2. -/
theorem c9_counterexample :
    GSCM_enter genTwo = (EnterOutcome.returns 1, 1) ∧
    GSCM_enter (setState genTwo 1) = (EnterOutcome.returns 2, 2) ∧
    EnterOutcome.returns 2 ≠ EnterOutcome.raises runtimeErrorDidntYield := by
  refine ⟨rfl, rfl, by decide⟩

/-- Claim C9 (amended): the adapter keeps no state of its own, so a
second enter simply resumes the generator again; for a well-formed
Procedure (one yield, then completion) the generator runs its cleanup and
completes, and the second enter fails with RuntimeError("generator
didn\x27t yield") — but a Procedure that suspends again instead returns
its next value with no error. -/
theorem c9_amended {σ : Type} (g : PyGen σ) (v : Nat) (s1 s2 : σ)
    (exc : PyExc)
    (h1 : g.step g.state ResumeInput.norm = (ResumeResult.yields v, s1))
    (h2 : g.step s1 ResumeInput.norm = (ResumeResult.stops exc, s2)) :
    GSCM_enter g = (EnterOutcome.returns v, s1) ∧
    GSCM_enter (setState g s1)
      = (EnterOutcome.raises runtimeErrorDidntYield, s2) := by
  constructor
  · simp [GSCM_enter, h1]
  · simp [GSCM_enter, setState_state, setState_step, h2]

/-- Claim C9 witness: the amended claim at the Procedure genFlags: the
second enter raises the RuntimeError and, as a side effect, the cleanup
has run (the resulting state has after set to True). -/
theorem c9_witness :
    genFlags.step genFlags.state ResumeInput.norm
      = (ResumeResult.yields 1, ⟨1, some true, none⟩) ∧
    genFlags.step ⟨1, some true, none⟩ ResumeInput.norm
      = (ResumeResult.stops (stopIterExc 1), ⟨2, some true, some true⟩) ∧
    (GSCM_enter genFlags = (EnterOutcome.returns 1, ⟨1, some true, none⟩) ∧
      GSCM_enter (setState genFlags ⟨1, some true, none⟩)
        = (EnterOutcome.raises runtimeErrorDidntYield,
            ⟨2, some true, some true⟩)) :=
  ⟨rfl, rfl,
    c9_amended genFlags 1 ⟨1, some true, none⟩ ⟨2, some true, some true⟩
      (stopIterExc 1) rfl rfl⟩

end PyUtil
